import Mathlib

/-!
Verification of the visibility and access-control policy of the blogicum
blog application (blog/views.py), over a shallow embedding of its data
model and request handlers.  The database is modelled as explicit lists of
records; `get_object_or_404` becomes `List.find?` returning `Option`
(where `none` is the Http404 signal); wall-clock time is an integer
parameter `now`.
-/

namespace Blogicum

/-- blog.models.Category: a grouping label carrying a slug and an
is_published flag that gates visibility of its posts. -/
structure Category where
  id : Nat
  slug : String
  is_published : Bool
deriving Repr, DecidableEq

/-- blog.models.Post: an author (User pk), a category, an is_published
flag and a publication timestamp pub_date (an integer timestamp here). -/
structure Post where
  id : Nat
  author : Nat
  category : Category
  is_published : Bool
  pub_date : Int
deriving Repr, DecidableEq

/-- blog.models.Comment: an author (User pk) and the owning Post pk. -/
structure Comment where
  id : Nat
  author : Nat
  post : Nat
  text : String
deriving Repr, DecidableEq

/-- The User record as used by blog/views.py: pk, the unique username
handle, and the profile fields editable through UserForm. -/
structure User where
  id : Nat
  username : String
  first_name : String
  last_name : String
  email : String
deriving Repr, DecidableEq

/-- request.user: `some pk` for an authenticated user, `none` for
AnonymousUser (which compares unequal to every User record). -/
abbrev Viewer := Option Nat

/-- get_object_or_404(Post, pk=pk): the Post with the given pk, if any;
`none` is the Http404 signal. -/
def findPost (db : List Post) (pk : Nat) : Option Post :=
  db.find? (fun p => p.id == pk)

/-- The filter conjunction written out in IndexHome.get_queryset,
CategoryListView.get_queryset, ProfileView.get_queryset and
PostDetailView.get_object: is_published=True, category__is_published=True,
pub_date__lte=timezone.now(). -/
def isLive (p : Post) (now : Int) : Bool :=
  p.is_published && p.category.is_published && decide (p.pub_date ≤ now)

/-- Modelled from the spec: the ordering supplied by CustomListMixin
(blog/mixins.py, which is not under src/) — pub_date descending (newest
first), ties broken by pk (creation order) ascending. -/
def postOrd (p q : Post) : Prop :=
  q.pub_date < p.pub_date ∨ (p.pub_date = q.pub_date ∧ p.id ≤ q.id)

instance : DecidableRel postOrd := fun p q => by
  unfold postOrd
  infer_instance

instance : IsTotal Post postOrd where
  total p q := by
    unfold postOrd
    rcases lt_trichotomy p.pub_date q.pub_date with hlt | heq | hgt
    · exact Or.inr (Or.inl hlt)
    · rcases Nat.le_total p.id q.id with h | h
      · exact Or.inl (Or.inr ⟨heq, h⟩)
      · exact Or.inr (Or.inr ⟨heq.symm, h⟩)
    · exact Or.inl (Or.inl hgt)

instance : IsTrans Post postOrd where
  trans p q r hpq hqr := by
    unfold postOrd at *
    rcases hpq with h1 | ⟨h1, h1i⟩ <;> rcases hqr with h2 | ⟨h2, h2i⟩
    · exact Or.inl (lt_trans h2 h1)
    · exact Or.inl (h2 ▸ h1)
    · exact Or.inl (h1 ▸ h2)
    · exact Or.inr ⟨h1.trans h2, Nat.le_trans h1i h2i⟩

/-- Modelled from the spec: CustomListMixin.get_queryset (blog/mixins.py,
not under src/): the base Post queryset ordered as `postOrd`.  The
comment_count annotation it also adds is a presentation aid with no
bearing on membership or order, and is not modelled. -/
def customListQueryset (db : List Post) : List Post :=
  List.insertionSort postOrd db

/-- IndexHome.get_queryset (blog/views.py): the base queryset filtered to
live posts. -/
def indexHomeQueryset (db : List Post) (now : Int) : List Post :=
  (customListQueryset db).filter (fun p => isLive p now)

/-- CategoryListView.get_queryset: get_object_or_404(Category,
slug=category_slug, is_published=True), then the live filter together
with category__slug=category_slug; `none` is the Http404 signal for an
absent or unpublished category. -/
def categoryListQueryset (cats : List Category) (db : List Post)
    (slug : String) (now : Int) : Option (List Post) :=
  match cats.find? (fun c => c.slug == slug && c.is_published) with
  | none => none
  | some _ => some ((customListQueryset db).filter
      (fun p => isLive p now && p.category.slug == slug))

/-- ProfileView.get_queryset: get_object_or_404(User, username=username);
the author filter always applies; when request.user is the profile owner
the queryset is returned as is, otherwise the live filter applies. -/
def profileQueryset (users : List User) (db : List Post) (viewer : Viewer)
    (username : String) (now : Int) : Option (List Post) :=
  match users.find? (fun u => u.username == username) with
  | none => none
  | some author =>
      let qs := (customListQueryset db).filter (fun p => p.author == author.id)
      if viewer = some author.id then some qs
      else some (qs.filter (fun p => isLive p now))

/-- PostDetailView.get_object: 404 when the pk is absent; for a viewer
other than the author, 404 unless the post is live; the author always
receives the post.  The codomain carries no separate forbidden signal:
every failure is `none` (Http404). -/
def postDetailGetObject (db : List Post) (viewer : Viewer) (pk : Nat)
    (now : Int) : Option Post :=
  match findPost db pk with
  | none => none
  | some post =>
      if some post.author ≠ viewer then
        if !(isLive post now) then none else some post
      else some post

/-- Submitted profile form data: the fields UserForm exposes.  The pk is
not among them. -/
structure UserForm where
  username : String
  first_name : String
  last_name : String
  email : String
deriving Repr, DecidableEq

/-- Saving UserForm onto a User record updates exactly the form fields. -/
def applyUserForm (f : UserForm) (u : User) : User :=
  { u with username := f.username, first_name := f.first_name,
           last_name := f.last_name, email := f.email }

/-- ProfileUpdateView: get_object returns request.user — the view takes no
target identifier from the request — so the form is saved onto the
viewer's own record only. -/
def profileUpdateView (users : List User) (viewer : Nat) (f : UserForm) :
    List User :=
  users.map (fun u => if u.id == viewer then applyUserForm f u else u)

/-- Submitted post form data.  The `author` field stands for any author
value included in the POST body: PostForm does not expose it and
PostCreateView.form_valid overwrites form.instance.author in any case. -/
structure PostFormData where
  title : String
  text : String
  pub_date : Int
  category : Category
  is_published : Bool
  author : Nat
deriving Repr, DecidableEq

/-- PostCreateView.form_valid: form.instance.author = self.request.user,
then save.  The submitted `author` field is ignored. -/
def postCreateView (viewer : Nat) (f : PostFormData) (newPk : Nat) : Post :=
  { id := newPk, author := viewer, category := f.category,
    is_published := f.is_published, pub_date := f.pub_date }

/-- Submitted comment form data; as above, `author` and `post` stand for
any values included in the POST body, both overwritten by form_valid. -/
structure CommentFormData where
  text : String
  author : Nat
  post : Nat
deriving Repr, DecidableEq

/-- CommentCreateView: dispatch runs get_object_or_404(Post, pk=post_id) —
an existence check only, with no visibility condition; form_valid then
sets author := request.user and post := the looked-up post and saves. -/
def commentCreateView (db : List Post) (comments : List Comment)
    (viewer : Nat) (post_id : Nat) (f : CommentFormData) (newPk : Nat) :
    Option (List Comment) :=
  match findPost db post_id with
  | none => none
  | some p =>
      some (comments ++ [{ id := newPk, author := viewer, post := p.id,
                           text := f.text }])

/-- Outcome of a guarded mutation attempt. -/
inductive ChangeOutcome where
  | applied
  | redirected
  | notFound
deriving Repr, DecidableEq

/-- Modelled from the spec: PostChangeMixin (blog/mixins.py, not under
src/), shared by PostUpdateView and PostDeleteView: look the post up by
pk; a viewer other than the author is redirected to the post-detail view
before any write happens; only the author reaches the write `op`. -/
def postChangeDispatch (db : List Post) (viewer : Viewer) (post_id : Nat)
    (op : List Post → List Post) : List Post × ChangeOutcome :=
  match findPost db post_id with
  | none => (db, ChangeOutcome.notFound)
  | some p =>
      if viewer = some p.author then (op db, ChangeOutcome.applied)
      else (db, ChangeOutcome.redirected)

/-- Modelled from the spec: CommentChangeMixin (blog/mixins.py, not under
src/), shared by CommentUpdateView and CommentDeleteView: the same
ownership guard over comments. -/
def commentChangeDispatch (cs : List Comment) (viewer : Viewer)
    (comment_id : Nat) (op : List Comment → List Comment) :
    List Comment × ChangeOutcome :=
  match cs.find? (fun c => c.id == comment_id) with
  | none => (cs, ChangeOutcome.notFound)
  | some c =>
      if viewer = some c.author then (op cs, ChangeOutcome.applied)
      else (cs, ChangeOutcome.redirected)

/-- PostUpdateView write step: save the edited form onto the post with
the given pk. -/
def postUpdateOp (post_id : Nat) (f : PostFormData) (db : List Post) :
    List Post :=
  db.map (fun p => if p.id == post_id then
    { p with category := f.category, is_published := f.is_published,
             pub_date := f.pub_date } else p)

/-- PostDeleteView write step: remove the post with the given pk. -/
def postDeleteOp (post_id : Nat) (db : List Post) : List Post :=
  db.filter (fun p => !(p.id == post_id))

/-! Concrete records used by the witnesses. -/

def liveCat : Category := { id := 1, slug := "general", is_published := true }

def hiddenCat : Category := { id := 2, slug := "hidden", is_published := false }

def draftPost : Post :=
  { id := 1, author := 10, category := liveCat, is_published := false, pub_date := 0 }

def livePost : Post :=
  { id := 2, author := 10, category := liveCat, is_published := true, pub_date := 0 }

def sampleUser : User :=
  { id := 10, username := "alice", first_name := "a", last_name := "b", email := "c" }

def sampleComment : Comment := { id := 7, author := 10, post := 2, text := "hi" }

/-- A submitted post form that forges author := 99. -/
def forgedPostForm : PostFormData :=
  { title := "t", text := "x", pub_date := 3, category := liveCat,
    is_published := true, author := 99 }

/-- A submitted comment form that forges author := 99 and post := 1. -/
def forgedCommentForm : CommentFormData :=
  { text := "x", author := 99, post := 1 }

def sampleUserForm : UserForm :=
  { username := "z", first_name := "z", last_name := "z", email := "z" }

/-- C1: for a viewer other than the author, the post-detail read returns
the post iff it is live; when it is not live the read yields `none` — the
very same value as for an absent pk — and the codomain carries no
permission-denied signal at all. -/
theorem post_detail_nonauthor_live_iff (db : List Post) (viewer : Viewer)
    (pk : Nat) (now : Int) (P : Post)
    (hfind : findPost db pk = some P) (hne : viewer ≠ some P.author) :
    (postDetailGetObject db viewer pk now = some P ↔ isLive P now = true) ∧
    (isLive P now = false → postDetailGetObject db viewer pk now = none) ∧
    (∀ pk2, findPost db pk2 = none →
      postDetailGetObject db viewer pk2 now = none) := by
  have key : postDetailGetObject db viewer pk now =
      if (!isLive P now) = true then none else some P := by
    simp only [postDetailGetObject, hfind]
    rw [if_pos (fun h => hne h.symm)]
  refine ⟨?_, ?_, ?_⟩
  · rw [key]
    cases hl : isLive P now <;> simp [hl]
  · intro hl
    rw [key]
    simp [hl]
  · intro pk2 h2
    simp only [postDetailGetObject, h2]

/-- Witness for C1 at a concrete unpublished post and anonymous viewer. -/
theorem post_detail_nonauthor_live_iff_witness :
    (postDetailGetObject [draftPost] none 1 5 = some draftPost ↔
      isLive draftPost 5 = true) ∧
    (isLive draftPost 5 = false → postDetailGetObject [draftPost] none 1 5 = none) ∧
    (∀ pk2, findPost [draftPost] pk2 = none →
      postDetailGetObject [draftPost] none pk2 5 = none) :=
  post_detail_nonauthor_live_iff [draftPost] none 1 5 draftPost
    (by decide) (by decide)

/-- C2: the author always receives their own post from the post-detail
read, whatever its is_published flag, category state or pub_date. -/
theorem post_detail_author_unconditional (db : List Post) (viewer : Viewer)
    (pk : Nat) (now : Int) (P : Post)
    (hfind : findPost db pk = some P) (hv : viewer = some P.author) :
    postDetailGetObject db viewer pk now = some P := by
  simp only [postDetailGetObject, hfind, hv]
  rw [if_neg (fun h => h rfl)]

/-- Witness for C2: the author reads their own draft. -/
theorem post_detail_author_unconditional_witness :
    postDetailGetObject [draftPost] (some 10) 1 5 = some draftPost :=
  post_detail_author_unconditional [draftPost] (some 10) 1 5 draftPost
    (by decide) (by decide)

/-- C4: every post in the default listing is published, in a published
category, and has pub_date at or before now.  The listing does not depend
on the viewer at all, so in particular the anonymous listing satisfies
this. -/
theorem index_listing_only_live (db : List Post) (now : Int) (p : Post)
    (hp : p ∈ indexHomeQueryset db now) :
    p.is_published = true ∧ p.category.is_published = true ∧
      p.pub_date ≤ now := by
  unfold indexHomeQueryset at hp
  have h := List.of_mem_filter hp
  unfold isLive at h
  simp only [Bool.and_eq_true, decide_eq_true_eq] at h
  exact ⟨h.1.1, h.1.2, h.2⟩

/-- Witness for C4 at a concrete listing containing a live post. -/
theorem index_listing_only_live_witness :
    livePost.is_published = true ∧ livePost.category.is_published = true ∧
      livePost.pub_date ≤ 5 :=
  index_listing_only_live [livePost, draftPost] 5 livePost (by decide)

/-- C7: every sequence any of the three listings returns — the default
listing, a served category listing, and a served profile listing — is
pairwise ordered by `postOrd`: pub_date descending, and any two posts
with equal pub_date ordered by pk (creation order).  The ordering
relation comes from the CustomListMixin contract, modelled from the
spec; each listing is a pure function of the data, hence
deterministic. -/
theorem visible_listings_ordered (users : List User) (cats : List Category)
    (db : List Post) (viewer : Viewer) (uname slug : String) (now : Int) :
    List.Sorted postOrd (indexHomeQueryset db now) ∧
    (∀ L, categoryListQueryset cats db slug now = some L →
      List.Sorted postOrd L) ∧
    (∀ L, profileQueryset users db viewer uname now = some L →
      List.Sorted postOrd L) := by
  have hbase : List.Sorted postOrd (customListQueryset db) :=
    List.sorted_insertionSort postOrd db
  refine ⟨List.Pairwise.filter _ hbase, ?_, ?_⟩
  · intro L hL
    cases hfind : cats.find? (fun c => c.slug == slug && c.is_published) with
    | none =>
        simp only [categoryListQueryset, hfind] at hL
        exact Option.noConfusion hL
    | some c =>
        simp only [categoryListQueryset, hfind, Option.some.injEq] at hL
        rw [← hL]
        exact List.Pairwise.filter _ hbase
  · intro L hL
    cases hfind : users.find? (fun u => u.username == uname) with
    | none =>
        simp only [profileQueryset, hfind] at hL
        exact Option.noConfusion hL
    | some A =>
        simp only [profileQueryset, hfind] at hL
        by_cases hv : viewer = some A.id
        · rw [if_pos hv, Option.some.injEq] at hL
          rw [← hL]
          exact List.Pairwise.filter _ hbase
        · rw [if_neg hv, Option.some.injEq] at hL
          rw [← hL]
          exact List.Pairwise.filter _ (List.Pairwise.filter _ hbase)

/-- Witness for C7: all three listings of a concrete database are
sorted; the category and profile components are applied to the
concretely served lists. -/
theorem visible_listings_ordered_witness :
    List.Sorted postOrd (indexHomeQueryset [livePost, draftPost] 5) ∧
    List.Sorted postOrd ((customListQueryset [livePost, draftPost]).filter
      (fun p => isLive p 5 && p.category.slug == "general")) ∧
    List.Sorted postOrd ((customListQueryset [livePost, draftPost]).filter
      (fun p => p.author == sampleUser.id)) :=
  ⟨(visible_listings_ordered [sampleUser] [liveCat] [livePost, draftPost]
      (some sampleUser.id) "alice" "general" 5).1,
   (visible_listings_ordered [sampleUser] [liveCat] [livePost, draftPost]
      (some sampleUser.id) "alice" "general" 5).2.1 _ (by decide),
   (visible_listings_ordered [sampleUser] [liveCat] [livePost, draftPost]
      (some sampleUser.id) "alice" "general" 5).2.2 _ (by decide)⟩

/-- C3: a non-author's update or delete attempt on a post or a comment is
rejected before any write: the data is returned unchanged for every
conceivable write step `op`, and the outcome is a redirect to the view,
not a hard error.  The guard itself (PostChangeMixin / CommentChangeMixin)
is modelled from the spec. -/
theorem non_author_mutation_rejected (db : List Post) (cs : List Comment)
    (viewer : Viewer) (pid cid : Nat) (P : Post) (C : Comment)
    (hP : findPost db pid = some P) (hvP : viewer ≠ some P.author)
    (hC : cs.find? (fun c => c.id == cid) = some C)
    (hvC : viewer ≠ some C.author) :
    (∀ op, postChangeDispatch db viewer pid op = (db, ChangeOutcome.redirected)) ∧
    (∀ op, commentChangeDispatch cs viewer cid op = (cs, ChangeOutcome.redirected)) := by
  constructor
  · intro op
    simp only [postChangeDispatch, hP]
    rw [if_neg hvP]
  · intro op
    simp only [commentChangeDispatch, hC]
    rw [if_neg hvC]

/-- Witness for C3: a stranger attempting a post delete and a comment
edit; both are redirected and the data is untouched. -/
theorem non_author_mutation_rejected_witness :
    postChangeDispatch [draftPost] (some 99) 1 (postDeleteOp 1) =
      ([draftPost], ChangeOutcome.redirected) ∧
    commentChangeDispatch [sampleComment] (some 99) 7 (fun l => l) =
      ([sampleComment], ChangeOutcome.redirected) :=
  ⟨(non_author_mutation_rejected [draftPost] [sampleComment] (some 99) 1 7
      draftPost sampleComment (by decide) (by decide) (by decide) (by decide)).1
      (postDeleteOp 1),
   (non_author_mutation_rejected [draftPost] [sampleComment] (some 99) 1 7
      draftPost sampleComment (by decide) (by decide) (by decide) (by decide)).2
      (fun l => l)⟩

/-- C5: on the profile listing of author A, when the viewer is A the live
predicate is dropped: the result holds exactly A's posts, drafts and
future posts included; for any other viewer membership additionally
requires the live predicate. -/
theorem profile_listing_owner_sees_all (users : List User) (db : List Post)
    (viewer : Viewer) (uname : String) (now : Int) (A : User)
    (hA : users.find? (fun u => u.username == uname) = some A) :
    (viewer = some A.id →
      ∃ L, profileQueryset users db viewer uname now = some L ∧
        ∀ p, p ∈ L ↔ p ∈ db ∧ p.author = A.id) ∧
    (viewer ≠ some A.id →
      ∃ L, profileQueryset users db viewer uname now = some L ∧
        ∀ p, p ∈ L ↔ p ∈ db ∧ p.author = A.id ∧ isLive p now = true) := by
  simp only [profileQueryset, hA]
  constructor
  · intro hv
    rw [if_pos hv]
    refine ⟨_, rfl, fun p => ?_⟩
    simp [customListQueryset, List.mem_filter, List.mem_insertionSort]
  · intro hv
    rw [if_neg hv]
    refine ⟨_, rfl, fun p => ?_⟩
    simp only [customListQueryset, List.mem_filter, List.mem_insertionSort,
      beq_iff_eq]
    tauto

/-- Witness for C5 at a concrete profile whose owner holds one draft. -/
theorem profile_listing_owner_sees_all_witness :
    (some sampleUser.id = some sampleUser.id →
      ∃ L, profileQueryset [sampleUser] [draftPost] (some sampleUser.id)
          "alice" 5 = some L ∧
        ∀ p, p ∈ L ↔ p ∈ [draftPost] ∧ p.author = sampleUser.id) ∧
    (some sampleUser.id ≠ some sampleUser.id →
      ∃ L, profileQueryset [sampleUser] [draftPost] (some sampleUser.id)
          "alice" 5 = some L ∧
        ∀ p, p ∈ L ↔ p ∈ [draftPost] ∧ p.author = sampleUser.id ∧
          isLive p 5 = true) :=
  profile_listing_owner_sees_all [sampleUser] [draftPost]
    (some sampleUser.id) "alice" 5 sampleUser (by decide)

/-- C6: a category request whose slug names no published category (absent
or with is_published=False alike) yields the uniform not-found signal
`none`; a successful category listing holds only live posts of that
slug. -/
theorem category_listing_guarded (cats : List Category) (db : List Post)
    (slug : String) (now : Int) :
    ((∀ c ∈ cats, c.slug = slug → c.is_published = false) →
      categoryListQueryset cats db slug now = none) ∧
    (∀ L, categoryListQueryset cats db slug now = some L →
      ∀ p ∈ L, p.is_published = true ∧ p.category.is_published = true ∧
        p.pub_date ≤ now ∧ p.category.slug = slug) := by
  constructor
  · intro hall
    have hnone : cats.find? (fun c => c.slug == slug && c.is_published) = none := by
      rw [List.find?_eq_none]
      intro c hc
      simp only [Bool.and_eq_true, beq_iff_eq, not_and]
      intro hcs
      rw [hall c hc hcs]
      simp
    simp only [categoryListQueryset, hnone]
  · intro L hL p hp
    cases hfind : cats.find? (fun c => c.slug == slug && c.is_published) with
    | none =>
        simp only [categoryListQueryset, hfind] at hL
        exact Option.noConfusion hL
    | some c =>
        simp only [categoryListQueryset, hfind, Option.some.injEq] at hL
        rw [← hL] at hp
        have h := List.of_mem_filter hp
        simp only [Bool.and_eq_true, beq_iff_eq, isLive,
          decide_eq_true_eq] at h
        exact ⟨h.1.1.1, h.1.1.2, h.1.2, h.2⟩

/-- Witness for C6: the unpublished category is not served. -/
theorem category_listing_guarded_witness :
    categoryListQueryset [hiddenCat] [livePost] "hidden" 5 = none :=
  (category_listing_guarded [hiddenCat] [livePost] "hidden" 5).1 (by decide)

/-- C8: a created post's author is the requesting viewer, and a created
comment's author is the requesting viewer with its post the one named by
post_id in the URL; the author (and post) values carried by the submitted
form data do not appear anywhere in the result. -/
theorem created_entities_owned_by_viewer (viewer : Nat) (f : PostFormData)
    (newPk : Nat) (db : List Post) (comments : List Comment) (cv : Nat)
    (pid : Nat) (cf : CommentFormData) (cPk : Nat) (P : Post)
    (h : findPost db pid = some P) :
    (postCreateView viewer f newPk).author = viewer ∧
    commentCreateView db comments cv pid cf cPk =
      some (comments ++ [{ id := cPk, author := cv, post := pid,
                           text := cf.text }]) := by
  have hid : P.id = pid := by simpa using List.find?_some h
  exact ⟨rfl, by simp only [commentCreateView, h, hid]⟩

/-- Witness for C8 with a form carrying a forged author value. -/
theorem created_entities_owned_by_viewer_witness :
    (postCreateView 10 forgedPostForm 5).author = 10 ∧
    commentCreateView [livePost] [] 10 2 forgedCommentForm 8 =
      some ([] ++ [{ id := 8, author := 10, post := 2, text := "x" }]) :=
  created_entities_owned_by_viewer 10 forgedPostForm 5 [livePost] [] 10 2
    forgedCommentForm 8 livePost (by decide)

/-- C9: comment creation checks only existence of the target post: even a
viewer who is not the author, commenting on a post that is not live,
succeeds, and the comment is attached to that post. -/
theorem comment_create_ignores_visibility (db : List Post)
    (comments : List Comment) (viewer : Nat) (pid : Nat)
    (f : CommentFormData) (cPk : Nat) (now : Int) (P : Post)
    (h : findPost db pid = some P) (hne : viewer ≠ P.author)
    (hnl : isLive P now = false) :
    commentCreateView db comments viewer pid f cPk =
      some (comments ++ [{ id := cPk, author := viewer, post := pid,
                           text := f.text }]) := by
  have hid : P.id = pid := by simpa using List.find?_some h
  simp only [commentCreateView, h, hid]

/-- Witness for C9: a stranger comments on an unpublished draft. -/
theorem comment_create_ignores_visibility_witness :
    commentCreateView [draftPost] [] 99 1 forgedCommentForm 8 =
      some ([] ++ [{ id := 8, author := 99, post := 1, text := "x" }]) :=
  comment_create_ignores_visibility [draftPost] [] 99 1 forgedCommentForm
    8 5 draftPost (by decide) (by decide) (by decide)

/-- C10: the profile update writes only to the viewer's own User record:
every record with a different pk is returned unchanged, at its original
position, and no record is added or removed. -/
theorem profile_update_frame (users : List User) (viewer : Nat)
    (f : UserForm) (i : Nat) (u : User)
    (h : users[i]? = some u) (hne : u.id ≠ viewer) :
    (profileUpdateView users viewer f)[i]? = some u ∧
    (profileUpdateView users viewer f).length = users.length := by
  constructor
  · unfold profileUpdateView
    rw [List.getElem?_map, h]
    simp [hne]
  · simp [profileUpdateView]

/-- Witness for C10: another user's record survives a profile update. -/
theorem profile_update_frame_witness :
    (profileUpdateView [sampleUser] 99 sampleUserForm)[0]? = some sampleUser ∧
    (profileUpdateView [sampleUser] 99 sampleUserForm).length =
      [sampleUser].length :=
  profile_update_frame [sampleUser] 99 sampleUserForm 0 sampleUser
    (by decide) (by decide)

end Blogicum
